import Mathlib

/-!
Verification of the chatbot orchestrator in `app.py` (a Streamlit app that
either chats with a hosted Gemini model or searches via the Tavily REST API).

The embedding models the four source functions:
* `load_api_key` (app.py lines 31-37),
* `perform_tavily_search` (lines 41-55),
* `generate_short_description` (lines 58-76),
* the per-submission body of `create_streamlit_chatbot` (lines 103-154),
  modelled as `create_streamlit_chatbot_step`.

External effects (HTTP responses of `requests.post`, the Gemini model calls)
are modelled as explicit environment values/oracles passed to the functions;
exceptions raised by library calls become explicit outcome constructors, and
the Python `try`/`except` structure becomes pattern matching on them.
Rendering calls (`st.write`, `st.error`, ...) are modelled as a list of
`RenderEvent`s emitted in source order.
-/

namespace Chatbot

/-- A conversation turn, the dict `{"user": ..., "bot": ...}` appended to
`st.session_state["history"]` at app.py line 144. -/
structure ConversationTurn where
  user : String
  bot : String
deriving Repr, DecidableEq

/-- One item of the `results` array of the Tavily JSON response body.
Each field is optional, matching the duck-typed `result.get(...)` accesses at
app.py lines 120-127. -/
structure SearchResult where
  title : Option String
  snippet : Option String
  url : Option String
deriving Repr, DecidableEq

/-- The JSON body of a Tavily HTTP response.
`invalid msg` models `response.json()` raising (non-JSON body, or a body that
is not an object so `.get` raises); `object results` models a JSON object
whose `results` field is the given array when present (`some`) and absent
otherwise (`none`), matching `response.json().get("results", [])` at
app.py line 53. -/
inductive ResponseBody where
  | invalid (msg : String)
  | object (results : Option (List SearchResult))
deriving Repr, DecidableEq

/-- The outcome of the single `requests.post` call at app.py line 51.
`transportError msg` models the call itself raising (DNS failure, timeout,
connection refused); `response httpError body` models a returned response,
where `httpError = some msg` means the status is outside the success range so
`response.raise_for_status()` (line 52) raises with that message. -/
inductive HttpOutcome where
  | transportError (msg : String)
  | response (httpError : Option String) (body : ResponseBody)
deriving Repr, DecidableEq

/-- What `perform_tavily_search` returns: the parsed `results` list on
success, or the dict `{"error": str(e)}` built in the `except` arm at
app.py line 55. -/
inductive SearchOutcome where
  | ok (results : List SearchResult)
  | error (msg : String)
deriving Repr, DecidableEq

/-- `perform_tavily_search` (app.py lines 41-55): posts the query, raises for
a bad status, parses `results` (defaulting to the empty list), and catches
every exception into an `{"error": ...}` value. The outcome of the HTTP call
is the explicit `outcome` argument. The query and the API key only shape the
outbound request, never the control flow, so they are not parameters here. -/
def perform_tavily_search (outcome : HttpOutcome) : SearchOutcome :=
  match outcome with
  | .transportError msg => .error msg
  | .response (some msg) _ => .error msg
  | .response none (.invalid msg) => .error msg
  | .response none (.object results) => .ok (results.getD [])

/-- The outcome of one `genai.generate_text` call inside
`generate_short_description`. `raises msg` models the call (or the attribute
accesses on its result) raising; `success generations` models a returned
response, carrying the `.text` of each entry of its `generations` list. -/
inductive ModelOutcome where
  | raises (msg : String)
  | success (generations : List String)
deriving Repr, DecidableEq

/-- Python `str.strip()`: drop whitespace from both ends. (Executable by
structural recursion, unlike `String.trim`.) -/
def pyStrip (s : String) : String :=
  ⟨((s.data.dropWhile Char.isWhitespace).reverse.dropWhile
      Char.isWhitespace).reverse⟩

/-- The prompt built at app.py lines 68-72. -/
def summary_prompt (title : String) : String :=
  "Provide a short, 4-line summary for the following topic:\n\n" ++
  "Title: " ++ title ++ "\n\n" ++
  "Summary:"

/-- `generate_short_description` (app.py lines 58-76). `configured` models
the truthiness of `genai._api_key` (line 65); `oracle` models the Gemini
call, mapping the prompt to its outcome. Unconfigured model, a raising call,
and an empty `generations` list (so `generations[0]` raises `IndexError`,
caught by the bare `except`) all yield `fallback`; otherwise the first
generation's text is returned stripped (`.strip()` becomes `pyStrip`). -/
def generate_short_description (configured : Bool)
    (oracle : String → ModelOutcome) (title fallback : String) : String :=
  match configured with
  | false => fallback
  | true =>
    match oracle (summary_prompt title) with
    | .raises _ => fallback
    | .success [] => fallback
    | .success (t :: _) => pyStrip t

/-- Truthiness of an optional string under Python `not`: `None` and the empty
string are falsy. -/
def optFalsy : Option String → Bool
  | none => true
  | some s => decide (s = "")

/-- `load_api_key` (app.py lines 31-37): reads the two secrets
(`st.secrets.get` yields `none` when the entry is missing), raises
`ValueError` when either is missing or empty, and returns both unchanged
otherwise. The raise is modelled as `Except.error` carrying the message. -/
def load_api_key (gemini_api_key tavily_api_key : Option String) :
    Except String (String × String) :=
  if optFalsy gemini_api_key || optFalsy tavily_api_key then
    .error "API keys not set in Streamlit secrets."
  else
    .ok (gemini_api_key.getD "", tavily_api_key.getD "")

/-- The outcome of the `llm.invoke` call at app.py line 141: either the call
raises, or it returns a message whose `.content` is the given string. -/
inductive ChatOutcome where
  | raises (msg : String)
  | reply (content : String)
deriving Repr, DecidableEq

/-- The two options of the `st.radio` selector at app.py line 103. -/
inductive Mode where
  | chatWithGemini
  | searchWithTavily
deriving Repr, DecidableEq

/-- One rendering call made while handling a submission: `st.markdown`,
`st.write`, `st.error`, `st.warning`, or `st.divider`. -/
inductive RenderEvent where
  | markdown (s : String)
  | write (s : String)
  | errorMsg (s : String)
  | warning (s : String)
  | divider
deriving Repr, DecidableEq

/-- The external collaborators of one submission: the HTTP outcome awaiting
the Tavily call, the Gemini chat model as a function from the transcript sent
to its outcome, and the state/oracle used by the summary fallback. -/
structure Env where
  searchOutcome : HttpOutcome
  llm : String → ChatOutcome
  configured : Bool
  summaryOracle : String → ModelOutcome

/-- One line `You💜: ...\nBot🤖: ...` of the context built at
app.py lines 135-137. -/
def format_turn (c : ConversationTurn) : String :=
  "You💜: " ++ c.user ++ "\nBot🤖: " ++ c.bot

/-- The `context` string of app.py lines 135-137: the prior history joined
with newlines. -/
def chat_context (history : List ConversationTurn) : String :=
  String.intercalate "\n" (history.map format_turn)

/-- The `full_input` transcript of app.py line 138 sent to `llm.invoke`. -/
def full_input (history : List ConversationTurn) (user_input : String) :
    String :=
  chat_context history ++ "\nYou💜: " ++ user_input ++ "\nBot🤖:"

/-- The `snippet` value computed for one search result at
app.py lines 121-125: the upstream snippet when present and non-empty
(`if not snippet` treats the missing key and the empty string alike),
otherwise the summary fallback on the result's title. The source computes
this value but its write (line 129) is commented out, so it never reaches
the rendered output. -/
def result_snippet (configured : Bool) (oracle : String → ModelOutcome)
    (r : SearchResult) : String :=
  let title := r.title.getD "No title available"
  match r.snippet with
  | none => generate_short_description configured oracle title
      "No description available"
  | some s =>
    if s = "" then
      generate_short_description configured oracle title
        "No description available"
    else s

/-- The rendering of one search result (loop body, app.py lines 119-131):
`{i}. **{title}**`, the link line, and a divider. The snippet is computed
(with its fallback call) but not written, faithful to the commented-out
`st.write(snippet)` at line 129. -/
def render_result (configured : Bool) (oracle : String → ModelOutcome)
    (i : Nat) (r : SearchResult) : List RenderEvent :=
  let title := r.title.getD "No title available"
  let _ := result_snippet configured oracle r
  let url := r.url.getD "#"
  [ .write (toString i ++ ". **" ++ title ++ "**"),
    .write ("[Link](" ++ url ++ ")"),
    .divider ]

/-- The `for i, result in enumerate(results, 1)` loop of
app.py lines 119-131, with `i` starting at 1. -/
def render_results (configured : Bool) (oracle : String → ModelOutcome)
    (i : Nat) : List SearchResult → List RenderEvent
  | [] => []
  | r :: rest =>
    render_result configured oracle i r ++
    render_results configured oracle (i + 1) rest

/-- The rendering of one conversation turn (loop body,
app.py lines 148-151). -/
def render_turn (c : ConversationTurn) : List RenderEvent :=
  [ .write ("**You💜:** " ++ c.user),
    .write ("**Bot🤖:** " ++ c.bot),
    .divider ]

/-- The `for chat in st.session_state["history"]` loop of
app.py lines 148-151. -/
def render_history : List ConversationTurn → List RenderEvent
  | [] => []
  | c :: rest => render_turn c ++ render_history rest

/-- The observable result of one submission: the history after the run and
the rendering calls made, in order. -/
structure StepResult where
  history : List ConversationTurn
  output : List RenderEvent
deriving Repr, DecidableEq

/-- The per-submission body of `create_streamlit_chatbot`
(app.py lines 106-154). An empty input makes `if user_input:` false and
nothing runs. In the search branch, `perform_tavily_search` never raises:
an error dict takes the `"error" in results` arm (line 113; on a list of
result dicts that membership test is false), an empty list takes the
`not results` arm (line 115), and otherwise the results are rendered.
In the chat branch, `llm.invoke` on the serialized transcript may raise —
caught by the `except` at line 153, rendering the error with history
untouched — and on success the new turn is appended (line 144) and the full
updated history is rendered (lines 147-151). -/
def create_streamlit_chatbot_step (env : Env) (mode : Mode)
    (user_input : String) (history : List ConversationTurn) : StepResult :=
  if user_input = "" then ⟨history, []⟩
  else
    match mode with
    | .searchWithTavily =>
      match perform_tavily_search env.searchOutcome with
      | .error msg =>
        ⟨history, [.errorMsg ("Tavily Search Error: " ++ msg)]⟩
      | .ok [] =>
        ⟨history, [.warning "No results found for your query."]⟩
      | .ok (r :: rest) =>
        ⟨history,
          .markdown "### Tavily Search Results" ::
          render_results env.configured env.summaryOracle 1 (r :: rest)⟩
    | .chatWithGemini =>
      match env.llm (full_input history user_input) with
      | .raises msg =>
        ⟨history, [.errorMsg ("Error processing your request: " ++ msg)]⟩
      | .reply content =>
        let newHistory := history ++ [⟨user_input, content⟩]
        ⟨newHistory,
          .markdown "### Conversation History" :: render_history newHistory⟩

/-- C3: for every query and key, `perform_tavily_search` never raises past
its boundary: a transport failure or a bad HTTP status yields an error value
carrying the underlying message, and every outcome yields either a result
list or such an error value (the function is total into `SearchOutcome`). -/
theorem tavily_search_never_raises :
    ∀ (msg : String) (body : ResponseBody) (o : HttpOutcome),
      perform_tavily_search (HttpOutcome.transportError msg) =
        SearchOutcome.error msg ∧
      perform_tavily_search (HttpOutcome.response (some msg) body) =
        SearchOutcome.error msg ∧
      ((∃ l, perform_tavily_search o = SearchOutcome.ok l) ∨
       (∃ m, perform_tavily_search o = SearchOutcome.error m)) := by
  intro msg body o
  refine ⟨rfl, rfl, ?_⟩
  rcases o with m | ⟨he, b⟩
  · exact Or.inr ⟨m, rfl⟩
  · rcases he with _ | m
    · rcases b with m | rs
      · exact Or.inr ⟨m, rfl⟩
      · exact Or.inl ⟨rs.getD [], rfl⟩
    · exact Or.inr ⟨m, rfl⟩

/-- C4: a successful response whose body contains a `results` array yields
`ok` of exactly that array — so the returned sequence has the same length
and the same elements in the same order — and a successful response whose
body lacks the `results` field yields `ok` of the empty list, not an
error. -/
theorem tavily_search_preserves_results :
    ∀ (results : List SearchResult),
      perform_tavily_search
          (HttpOutcome.response none (ResponseBody.object (some results))) =
        SearchOutcome.ok results ∧
      perform_tavily_search
          (HttpOutcome.response none (ResponseBody.object none)) =
        SearchOutcome.ok [] := by
  intro results
  exact ⟨rfl, rfl⟩

/-- C6: `generate_short_description` is total into `String` (it never
throws), and each failure mode — unconfigured model, a raising call, an
empty response (no generations, so indexing raises and is caught) — returns
the fixed fallback string `"No description available"`. -/
theorem summary_fallback_never_throws :
    ∀ (oracle : String → ModelOutcome) (title msg : String),
      generate_short_description false oracle title
          "No description available" = "No description available" ∧
      generate_short_description true (fun _ => ModelOutcome.raises msg)
          title "No description available" = "No description available" ∧
      generate_short_description true (fun _ => ModelOutcome.success [])
          title "No description available" = "No description available" := by
  intro oracle title msg
  exact ⟨rfl, rfl, rfl⟩

/-- C5 counterexample: the computed snippet CAN be empty. For a result whose
upstream snippet is absent, when the configured model call succeeds with a
whitespace-only summary, `text.strip()` (app.py line 74) yields the empty
string and it is returned as the snippet — not the fixed fallback. -/
theorem snippet_empty_counterexample :
    result_snippet true (fun _ => ModelOutcome.success ["   "])
      ⟨some "Rust", none, some "https://rust-lang.org"⟩ = "" := by decide

/-- C5 (amended): for every search result whose upstream snippet is missing
or empty, the summary fallback is invoked on the result's title and the
computed snippet is its output (the upstream text is used only when present
and non-empty); a present-but-empty snippet string and an absent snippet key
are treated identically. The computed snippet can be empty when the model
call succeeds with a summary that strips to the empty string — and it never
reaches the rendered output, since its write is commented out in the
source. -/
theorem snippet_fallback_amended :
    ∀ (configured : Bool) (oracle : String → ModelOutcome)
      (r : SearchResult),
      ((r.snippet = none ∨ r.snippet = some "") →
        result_snippet configured oracle r =
          generate_short_description configured oracle
            (r.title.getD "No title available") "No description available") ∧
      (∀ s, r.snippet = some s → s ≠ "" →
        result_snippet configured oracle r = s) ∧
      result_snippet configured oracle ⟨r.title, none, r.url⟩ =
        result_snippet configured oracle ⟨r.title, some "", r.url⟩ := by
  intro configured oracle r
  refine ⟨?_, ?_, ?_⟩
  · rintro (h | h) <;> simp [result_snippet, h]
  · intro s hs hne
    simp [result_snippet, hs, hne]
  · simp [result_snippet]

/-- C5 witness: the amended theorem at a concrete result with a missing
snippet and a failing model: the fallback is invoked and evaluates to the
fixed fallback string. -/
theorem snippet_fallback_amended_witness :
    result_snippet true (fun _ => ModelOutcome.raises "quota")
        ⟨some "Rust", none, some "https://rust-lang.org"⟩ =
      generate_short_description true (fun _ => ModelOutcome.raises "quota")
        "Rust" "No description available" ∧
    generate_short_description true (fun _ => ModelOutcome.raises "quota")
        "Rust" "No description available" = "No description available" :=
  ⟨(snippet_fallback_amended true (fun _ => ModelOutcome.raises "quota")
      ⟨some "Rust", none, some "https://rust-lang.org"⟩).1 (Or.inl rfl),
   rfl⟩

/-- C7: when both secrets are present and non-empty, `load_api_key` returns
both values unchanged; when either is missing (`none`) or empty, it fails
with the configuration error instead of returning. -/
theorem load_api_key_contract :
    ∀ (g t : String) (o : Option String),
      (g ≠ "" → t ≠ "" →
        load_api_key (some g) (some t) = Except.ok (g, t)) ∧
      (∃ m, load_api_key none o = Except.error m) ∧
      (∃ m, load_api_key o none = Except.error m) ∧
      (∃ m, load_api_key (some "") o = Except.error m) ∧
      (∃ m, load_api_key o (some "") = Except.error m) := by
  intro g t o
  refine ⟨?_, ?_, ?_, ?_, ?_⟩
  · intro hg ht
    simp [load_api_key, optFalsy, hg, ht]
  · exact ⟨_, rfl⟩
  · rcases o with _ | s
    · exact ⟨_, rfl⟩
    · by_cases hs : s = "" <;> simp [load_api_key, optFalsy, hs]
  · exact ⟨_, rfl⟩
  · rcases o with _ | s
    · exact ⟨_, rfl⟩
    · by_cases hs : s = "" <;> simp [load_api_key, optFalsy, hs]

/-- C7 witness: the contract at a concrete valid pair. -/
theorem load_api_key_contract_witness :
    load_api_key (some "gk") (some "tk") = Except.ok ("gk", "tk") :=
  (load_api_key_contract "gk" "tk" none).1 (by decide) (by decide)

/-- C1: for every successful chat round — Chat mode, non-empty input, the
llm call returning a reply — the history grows by exactly one entry appended
at the end, whose `user` field is the submitted input and whose `bot` field
is the reply's content; the original history is an unmodified initial
segment of the new one (append-only). -/
theorem chat_success_appends_one_turn :
    ∀ (env : Env) (input : String) (history : List ConversationTurn)
      (content : String),
      input ≠ "" →
      env.llm (full_input history input) = ChatOutcome.reply content →
      (create_streamlit_chatbot_step env Mode.chatWithGemini input
          history).history = history ++ [⟨input, content⟩] ∧
      (create_streamlit_chatbot_step env Mode.chatWithGemini input
          history).history.length = history.length + 1 ∧
      (create_streamlit_chatbot_step env Mode.chatWithGemini input
          history).history.take history.length = history := by
  intro env input history content hin hllm
  refine ⟨?_, ?_, ?_⟩ <;>
    simp [create_streamlit_chatbot_step, if_neg hin, hllm, List.take_left]

/-- C1 witness: the theorem at a concrete environment whose model replies
`"Hi!"`, a non-empty input and a one-turn history. -/
theorem chat_success_appends_one_turn_witness :
    (create_streamlit_chatbot_step
        ⟨HttpOutcome.transportError "unused", fun _ => ChatOutcome.reply "Hi!",
         true, fun _ => ModelOutcome.success []⟩
        Mode.chatWithGemini "hello" [⟨"a", "b"⟩]).history =
      [⟨"a", "b"⟩] ++ [⟨"hello", "Hi!"⟩] :=
  (chat_success_appends_one_turn
      ⟨HttpOutcome.transportError "unused", fun _ => ChatOutcome.reply "Hi!",
       true, fun _ => ModelOutcome.success []⟩
      "hello" [⟨"a", "b"⟩] "Hi!" (by decide) rfl).1

/-- C2: for every failed chat round — the llm call raising — the run leaves
history unchanged (same length, same entries) and renders the error as the
user-visible message produced by the `except` arm at app.py lines 153-154,
so the exception does not escape the orchestrator. -/
theorem chat_failure_preserves_history :
    ∀ (env : Env) (input : String) (history : List ConversationTurn)
      (msg : String),
      input ≠ "" →
      env.llm (full_input history input) = ChatOutcome.raises msg →
      create_streamlit_chatbot_step env Mode.chatWithGemini input history =
        ⟨history,
         [RenderEvent.errorMsg ("Error processing your request: " ++ msg)]⟩ := by
  intro env input history msg hin hllm
  simp [create_streamlit_chatbot_step, if_neg hin, hllm]

/-- C2 witness: the theorem at a concrete environment whose model raises
`"quota exceeded"`. -/
theorem chat_failure_preserves_history_witness :
    create_streamlit_chatbot_step
        ⟨HttpOutcome.transportError "unused",
         fun _ => ChatOutcome.raises "quota exceeded",
         true, fun _ => ModelOutcome.success []⟩
        Mode.chatWithGemini "hello" [⟨"a", "b"⟩] =
      ⟨[⟨"a", "b"⟩],
       [RenderEvent.errorMsg
          ("Error processing your request: " ++ "quota exceeded")]⟩ :=
  chat_failure_preserves_history
    ⟨HttpOutcome.transportError "unused",
     fun _ => ChatOutcome.raises "quota exceeded",
     true, fun _ => ModelOutcome.success []⟩
    "hello" [⟨"a", "b"⟩] "quota exceeded" (by decide) rfl

/-- An environment whose chat model answers `"Hi there!"` exactly when the
transcript it is sent is `"\nYou💜: hello\nBot🤖:"`, and raises otherwise:
used to check which transcript the chat branch actually sends. -/
def helloEnv : Env :=
  ⟨HttpOutcome.transportError "unused",
   fun t => if t = "\nYou💜: hello\nBot🤖:" then ChatOutcome.reply "Hi there!"
            else ChatOutcome.raises "unexpected transcript",
   true, fun _ => ModelOutcome.success []⟩

/-- C8: with an empty history, the transcript built for input `"hello"` is
exactly `"\nYou💜: hello\nBot🤖:"`, it is what the chat branch sends to the
model (the `helloEnv` model replies only to that exact transcript), and on
the reply `"Hi there!"` the history becomes the single turn
`{user: "hello", bot: "Hi there!"}`. -/
theorem chat_hello_scenario :
    full_input [] "hello" = "\nYou💜: hello\nBot🤖:" ∧
    (create_streamlit_chatbot_step helloEnv Mode.chatWithGemini "hello"
        []).history = [⟨"hello", "Hi there!"⟩] := by
  exact ⟨rfl, rfl⟩

/-- C9: every submission handled by the search branch leaves history
unchanged — whatever the search outcome — and an upstream response whose
result set is empty renders exactly the "no results" notice. -/
theorem search_branch_frame :
    ∀ (env : Env) (input : String) (history : List ConversationTurn),
      input ≠ "" →
      (create_streamlit_chatbot_step env Mode.searchWithTavily input
          history).history = history ∧
      (perform_tavily_search env.searchOutcome = SearchOutcome.ok [] →
        (create_streamlit_chatbot_step env Mode.searchWithTavily input
            history).output =
          [RenderEvent.warning "No results found for your query."]) := by
  intro env input history hin
  rcases h : perform_tavily_search env.searchOutcome with l | m
  · rcases l with _ | ⟨r, rest⟩
    · exact ⟨by simp [create_streamlit_chatbot_step, if_neg hin, h],
             fun _ => by simp [create_streamlit_chatbot_step, if_neg hin, h]⟩
    · refine ⟨by simp [create_streamlit_chatbot_step, if_neg hin, h], ?_⟩
      intro he
      simp at he
  · refine ⟨by simp [create_streamlit_chatbot_step, if_neg hin, h], ?_⟩
    intro he
    simp at he

/-- C9 witness: the theorem at the scenario of the spec — query
`"rust vs go"`, upstream body `{"results": []}`, a one-turn history. -/
theorem search_branch_frame_witness :
    (create_streamlit_chatbot_step
        ⟨HttpOutcome.response none (ResponseBody.object (some [])),
         fun _ => ChatOutcome.raises "unused", true,
         fun _ => ModelOutcome.success []⟩
        Mode.searchWithTavily "rust vs go" [⟨"a", "b"⟩]).history =
      [⟨"a", "b"⟩] ∧
    (create_streamlit_chatbot_step
        ⟨HttpOutcome.response none (ResponseBody.object (some [])),
         fun _ => ChatOutcome.raises "unused", true,
         fun _ => ModelOutcome.success []⟩
        Mode.searchWithTavily "rust vs go" [⟨"a", "b"⟩]).output =
      [RenderEvent.warning "No results found for your query."] :=
  have h := search_branch_frame
    ⟨HttpOutcome.response none (ResponseBody.object (some [])),
     fun _ => ChatOutcome.raises "unused", true,
     fun _ => ModelOutcome.success []⟩
    "rust vs go" [⟨"a", "b"⟩] (by decide)
  ⟨h.1, h.2 rfl⟩

/-- C10: a submission with empty input text does nothing: for EVERY
environment (so no outbound search or chat call can influence the result),
the run renders nothing and leaves history unchanged. -/
theorem empty_input_noop :
    ∀ (env : Env) (mode : Mode) (history : List ConversationTurn),
      create_streamlit_chatbot_step env mode "" history = ⟨history, []⟩ := by
  intro env mode history
  simp [create_streamlit_chatbot_step]

end Chatbot
